import Mathlib

/-!
# Verification of the ecommerce-aws data-access engine

Shallow embedding of the Go data-access engine of `quochao170402/ecommerce-aws`
(product-service `service/dynamo_service.go` and
`internal/repository/base_repository.go`, domain entities in
`internal/domain`), together with theorems settling the frozen claims
about its specification.

Conventions of the embedding:
* Go `int`, `int32`, `int64` values are modelled as `Int` (no overflow is
  reached by any operation modelled here); Go `float64` is idealised as `ℚ`
  carried opaquely through the wire (DynamoDB numbers travel as decimal text).
* Go maps are modelled as association lists with Go's assignment semantics
  (`assocSet` replaces an existing key in place, otherwise appends).
* The DynamoDB client is modelled as an oracle function supplied by the
  environment; every request the code would place on the wire is recorded in
  an explicit trace so that claims about the requests can be stated.
-/

namespace EcommerceAws

/-- Go map assignment `m[k] = v` on an association-list model of a map:
replaces the value of an existing key, otherwise adds the binding. -/
def assocSet {α : Type} : List (String × α) → String → α → List (String × α)
  | [], k, v => [(k, v)]
  | (k', v') :: t, k, v =>
      if k' = k then (k, v) :: t else (k', v') :: assocSet t k v

/-! ## Batch writer (`dynamo_service.go`, `AddBatchItems` / `processBatch`) -/

/-- Constant MaxBatchWriteItems = 25 (dynamo_service.go line 19). -/
def MaxBatchWriteItems : Nat := 25

/-- Constant MaxRetryAttempts = 3 (dynamo_service.go line 20). -/
def MaxRetryAttempts : Nat := 3

/-- The chunking loop of `AddBatchItems` (dynamo_service.go lines 238-244):
`for i := 0; i < len(items); i += MaxBatchWriteItems { batch := items[i:end] }`
with `end = min(i+25, len(items))`; rendered as take/drop recursion. -/
def chunkItems {α : Type} : List α → List (List α)
  | [] => []
  | x :: xs =>
      (x :: xs).take MaxBatchWriteItems :: chunkItems ((x :: xs).drop MaxBatchWriteItems)
termination_by l => l.length
decreasing_by
  simp [List.length_drop, MaxBatchWriteItems]
  omega

/-- Errors surfaced by `processBatch`. `storeError a` models
`"batch write failed on attempt %d"` (line 288, `a` is the 1-based attempt);
`exhausted n` models `"failed to process all items after %d attempts, %d items
remain unprocessed"` (lines 295-296), carrying the reported remaining count;
`marshalError` models `"failed to marshal item"` (line 259). -/
inductive BatchError : Type
  | marshalError : BatchError
  | storeError : Nat → BatchError
  | exhausted : Nat → BatchError
deriving DecidableEq, Repr

/-- Trace of one `processBatch` call: the outcome, the payload of every
`BatchWriteItem` request actually placed on the wire, the backoff delay (ms)
slept before each of those requests, and the write requests still unprocessed
when the loop ended. -/
structure BatchTrace (ρ : Type) : Type where
  result : Option BatchError
  calls : List (List ρ)
  delays : List Nat
  remaining : List ρ
deriving Repr

/-- The retry loop of `processBatch` (dynamo_service.go lines 272-292):
`for attempt := 0; attempt < MaxRetryAttempts && len(unprocessedItems) > 0;
attempt++`, sleeping `attempt*attempt*100` ms before each retry, resubmitting
only the store's unprocessed remainder.  `store a` is the store's answer to
the call made at 0-based attempt `a`: either a transport error or the list of
write requests left unprocessed (the map `result.UnprocessedItems` restricted
to the one table present in the request; map emptiness = list emptiness). -/
def batchAttempts {ρ : Type} (store : Nat → Option (List ρ)) :
    Nat → Nat → List ρ → BatchTrace ρ
  | _, 0, unproc =>
      if unproc.isEmpty then ⟨none, [], [], unproc⟩
      else ⟨some (BatchError.exhausted unproc.length), [], [], unproc⟩
  | attempt, fuel + 1, unproc =>
      if unproc.isEmpty then ⟨none, [], [], unproc⟩
      else
        let d := attempt * attempt * 100
        match store attempt with
        | none => ⟨some (BatchError.storeError (attempt + 1)), [unproc], [d], unproc⟩
        | some next =>
            let t := batchAttempts store (attempt + 1) fuel next
            ⟨t.result, unproc :: t.calls, d :: t.delays, t.remaining⟩

/-- Function processBatch (dynamo_service.go lines 253-300): marshal every item of
the chunk into a write request (first failure aborts before any store call),
then run the bounded retry loop starting at attempt 0 with the full chunk. -/
def processBatch {α ρ : Type} (marshal : α → Option ρ)
    (store : Nat → Option (List ρ)) (items : List α) : BatchTrace ρ :=
  match items.mapM marshal with
  | none => ⟨some BatchError.marshalError, [], [], []⟩
  | some reqs => batchAttempts store 0 MaxRetryAttempts reqs

/-- The chunk-submission loop of `AddBatchItems` (dynamo_service.go lines
238-248): submit chunks in order; the first chunk whose `processBatch` fails
makes the whole call return that error immediately (`return fmt.Errorf(...)`),
leaving the remaining chunks unsubmitted.  `proc i c` is the outcome of
`processBatch` on the `i`-th chunk `c` under the environment's store
behaviour; the second component records every chunk actually submitted. -/
def runChunks {α : Type} (proc : Nat → List α → Option BatchError) :
    Nat → List (List α) → Option (Nat × BatchError) × List (List α)
  | _, [] => (none, [])
  | i, c :: cs =>
      match proc i c with
      | some e => (some (i, e), [c])
      | none =>
          let r := runChunks proc (i + 1) cs
          (r.1, c :: r.2)

/-- AddBatchItems (dynamo_service.go lines 232-251): nothing to do on an
empty input; otherwise partition into chunks of at most 25 and submit each in
order through processBatch, aborting on the first chunk failure. -/
def AddBatchItems {α : Type} (proc : Nat → List α → Option BatchError)
    (items : List α) : Option (Nat × BatchError) × List (List α) :=
  runChunks proc 0 (chunkItems items)

/-! ## Wire values and Go dynamic values -/

/-- DynamoDB attribute value (the wire representation used by the
attributevalue codec and by every request the engine builds).  Numbers travel
as decimal text on the wire; they are idealised here as rationals. -/
inductive AttrVal : Type
  | S (s : String)
  | N (q : ℚ)
  | BOOL (b : Bool)
  | NULL
  | L (l : List AttrVal)
  | M (m : List (String × AttrVal))

/-- A Go `any` value as it can appear in an ExpressionAttributes map.  The
constructors record the dynamic Go type, which the type switch in UpdateItem
dispatches on. -/
inductive GoValue : Type
  | vInt (n : Int)
  | vInt64 (n : Int)
  | vFloat64 (q : ℚ)
  | vInt32 (n : Int)
  | vUint (n : Nat)
  | vString (s : String)
  | vBool (b : Bool)
deriving DecidableEq, Repr

/-- True exactly for the Go values whose dynamic type is numeric
(int, int64, float64, int32, uint in this universe). -/
def GoValue.isNumeric : GoValue → Bool
  | .vInt _ => true
  | .vInt64 _ => true
  | .vFloat64 _ => true
  | .vInt32 _ => true
  | .vUint _ => true
  | .vString _ => false
  | .vBool _ => false

/-- True exactly for the dynamic types the switch in UpdateItem lists as its
numeric cases: int, int64 and float64 — and for no other numeric type. -/
def GoValue.isSwitchNumeric : GoValue → Bool
  | .vInt _ => true
  | .vInt64 _ => true
  | .vFloat64 _ => true
  | .vInt32 _ => false
  | .vUint _ => false
  | .vString _ => false
  | .vBool _ => false

/-- The type switch of UpdateItem (dynamo_service.go lines 466-475):
values of dynamic type int, int64 or float64 are passed to the expression
builder as numbers; every other value falls into the default branch and is
written as its fmt.Sprintf("%v", v) string rendering. -/
def coerceUpdateValue : GoValue → AttrVal
  | .vInt n => .N (n : ℚ)
  | .vInt64 n => .N (n : ℚ)
  | .vFloat64 q => .N q
  | .vInt32 n => .S (toString n)
  | .vUint n => .S (toString n)
  | .vString s => .S s
  | .vBool b => .S (if b then "true" else "false")

/-- The assignment loop of UpdateItem: each entry of the ExpressionAttributes
map becomes one SET assignment carrying the coerced wire value. -/
def buildUpdateAssignments (attrs : List (String × GoValue)) :
    List (String × AttrVal) :=
  attrs.map (fun kv => (kv.1, coerceUpdateValue kv.2))

/-! ## Domain entities (internal/domain/product.go) -/

/-- ImageUrl (product.go): url and alt, both strings. -/
structure ImageUrl : Type where
  url : String
  alt : String
deriving DecidableEq, Repr

/-- Product (product.go), with its dynamodbav field tags:
id, name, price, description, createdAt, updatedAt, status, version,
brandId, categoryId, imageUrls. -/
structure Product : Type where
  id : String
  name : String
  price : ℚ
  description : String
  createdAt : Int
  updatedAt : Int
  status : String
  version : Int
  brandId : String
  categoryId : String
  images : List ImageUrl
deriving DecidableEq, Repr

/-- Whether the method set of the POINTER type (asterisk)Product satisfies
domain.TimestampedEntity.  All four methods (SetCreatedAt, SetUpdatedAt,
GetCreatedAt, GetUpdatedAt) are in the pointer method set, so the type
assertion in Save/SaveBatch/Update — which receive an entity pointer —
succeeds. -/
def productPtrIsTimestamped : Bool := true

/-- Whether the method set of the VALUE type Product satisfies
domain.TimestampedEntity.  SetCreatedAt and SetUpdatedAt are declared with
pointer receivers (product.go), and by the Go method-set rule pointer-receiver
methods are absent from the method set of the value type, so the type
assertion in SaveIfNotExists — which receives the entity by value — fails. -/
def productValueIsTimestamped : Bool := false

/-- Pointer method set of Product satisfies domain.VersionedEntity
(GetVersion has a value receiver, SetVersion a pointer receiver). -/
def productPtrIsVersioned : Bool := true

/-! ## Capability injection (internal/repository/base_repository.go) -/

/-- Save (base_repository.go lines 94-107), entity received as a pointer:
if the Timestamped assertion succeeds, set createdAt and updatedAt both to
now; if the Versioned assertion succeeds, set version to 1; then the entity
is written via AddItem. -/
def Save (now : Int) (p : Product) : Product :=
  let p1 := if productPtrIsTimestamped then
      { p with createdAt := now, updatedAt := now } else p
  if productPtrIsVersioned then { p1 with version := 1 } else p1

/-- SaveBatch (base_repository.go lines 109-126): the same pointer-based
injection applied to every element (the loop takes a pointer to each item),
then the list is written via AddBatchItems. -/
def SaveBatch (now : Int) (ps : List Product) : List Product :=
  ps.map (fun p =>
    let p1 := if productPtrIsTimestamped then
        { p with createdAt := now, updatedAt := now } else p
    if productPtrIsVersioned then { p1 with version := 1 } else p1)

/-- SaveIfNotExists (base_repository.go lines 216-225), entity received BY
VALUE: only a Timestamped branch exists (there is no Versioned branch in the
source), and the assertion is made on the entity value, then the entity is
written via AddItemWithCondition with the guard attribute_not_exists(id). -/
def SaveIfNotExists (now : Int) (p : Product) : Product :=
  if productValueIsTimestamped then
    { p with createdAt := now, updatedAt := now } else p

/-- Update (base_repository.go lines 152-170), entity received as a pointer:
into the caller-supplied ExpressionAttributes map, assign
updatedAt = now (int64) when Timestamped, and
version = GetVersion() + 1 (int) when Versioned; the resulting map is what
UpdateItem turns into SET assignments. -/
def Update (now : Int) (entity : Product) (attrs : List (String × GoValue)) :
    List (String × GoValue) :=
  let a1 := if productPtrIsTimestamped then
      assocSet attrs "updatedAt" (GoValue.vInt64 now) else attrs
  if productPtrIsVersioned then
    assocSet a1 "version" (GoValue.vInt (entity.version + 1)) else a1

/-- UpdateByID (base_repository.go lines 173-181): builds the key from the id
and passes opts.ExpressionAttributes through to UpdateItem unchanged — no
capability check and no injected entry of any kind. -/
def UpdateByID (attrs : List (String × GoValue)) : List (String × GoValue) :=
  attrs

/-! ## EntityCodec for Product

Modelled from the spec: the marshal/unmarshal pair is the vendor
attributevalue codec (not part of this repository), invoked by AddItem
(dynamo_service.go lines 184-200) and GetItem (lines 303-324).  The field
set and dynamodbav tags come from the Product struct in the source; the wire
tagging (S, N as decimal text, BOOL, NULL, L, M) follows section 6 of the
spec. -/

/-- Marshal one ImageUrl into a wire map. -/
def marshalImage (im : ImageUrl) : AttrVal :=
  .M [("url", .S im.url), ("alt", .S im.alt)]

/-- Marshal a Product into its attribute map, one entry per dynamodbav tag. -/
def marshalProduct (p : Product) : List (String × AttrVal) :=
  [ ("id", .S p.id)
  , ("name", .S p.name)
  , ("price", .N p.price)
  , ("description", .S p.description)
  , ("createdAt", .N (p.createdAt : ℚ))
  , ("updatedAt", .N (p.updatedAt : ℚ))
  , ("status", .S p.status)
  , ("version", .N (p.version : ℚ))
  , ("brandId", .S p.brandId)
  , ("categoryId", .S p.categoryId)
  , ("imageUrls", .L (p.images.map marshalImage)) ]

/-- Decode a wire value as a string; any other tag is a decoding error. -/
def attrString : AttrVal → Option String
  | .S s => some s
  | _ => none

/-- Decode a wire value as a number. -/
def attrNumber : AttrVal → Option ℚ
  | .N q => some q
  | _ => none

/-- Decode a wire number as a 64-bit integer field (the decimal text must
denote an integer). -/
def attrInt (v : AttrVal) : Option Int := do
  let q ← attrNumber v
  if q.den = 1 then some q.num else none

/-- Unmarshal one ImageUrl from a wire value. -/
def unmarshalImage : AttrVal → Option ImageUrl
  | .M m => do
      let url ← m.lookup "url" >>= attrString
      let alt ← m.lookup "alt" >>= attrString
      some ⟨url, alt⟩
  | _ => none

/-- Unmarshal a wire list of image values element by element; the first
failing element fails the whole decode. -/
def unmarshalImages : List AttrVal → Option (List ImageUrl)
  | [] => some []
  | v :: t => do
      let im ← unmarshalImage v
      let rest ← unmarshalImages t
      some (im :: rest)

/-- Unmarshal a Product from an attribute map: look each tagged field up by
name and decode it at its declared type. -/
def unmarshalProduct (m : List (String × AttrVal)) : Option Product := do
  let pid ← m.lookup "id" >>= attrString
  let pname ← m.lookup "name" >>= attrString
  let pprice ← m.lookup "price" >>= attrNumber
  let pdescription ← m.lookup "description" >>= attrString
  let pcreatedAt ← m.lookup "createdAt" >>= attrInt
  let pupdatedAt ← m.lookup "updatedAt" >>= attrInt
  let pstatus ← m.lookup "status" >>= attrString
  let pversion ← m.lookup "version" >>= attrInt
  let pbrandId ← m.lookup "brandId" >>= attrString
  let pcategoryId ← m.lookup "categoryId" >>= attrString
  let pimages ← match m.lookup "imageUrls" with
    | some (.L l) => unmarshalImages l
    | _ => none
  some ⟨pid, pname, pprice, pdescription, pcreatedAt, pupdatedAt, pstatus,
        pversion, pbrandId, pcategoryId, pimages⟩

/-! ## Item accessor (GetItem / GetItemConsistent) -/

/-- Outcome of one GetItem round trip to the store: transport error, no item
under the key, or a raw item. -/
inductive StoreRead : Type
  | failure
  | missing
  | found (raw : List (String × AttrVal))

/-- Shared body of GetItem and GetItemConsistent (dynamo_service.go lines
303-324 and 327-348): place a GetItemInput carrying the key and the
ConsistentRead flag; a transport error is returned as an error; a nil
result.Item is returned as (nil, nil) — an absent value with no error;
otherwise unmarshal (an unmarshal failure is an error). -/
def getItemCore {α : Type} (respond : List (String × AttrVal) → Bool → StoreRead)
    (decode : List (String × AttrVal) → Option α)
    (key : List (String × AttrVal)) (consistent : Bool) :
    Except String (Option α) :=
  match respond key consistent with
  | .failure => .error "failed to get item from table"
  | .missing => .ok none
  | .found raw =>
      match decode raw with
      | none => .error "failed to unmarshal item"
      | some v => .ok (some v)

/-- GetItem: eventually consistent read (ConsistentRead = false, line 307). -/
def GetItem {α : Type} (respond : List (String × AttrVal) → Bool → StoreRead)
    (decode : List (String × AttrVal) → Option α)
    (key : List (String × AttrVal)) : Except String (Option α) :=
  getItemCore respond decode key false

/-- GetItemConsistent: strongly consistent read (ConsistentRead = true). -/
def GetItemConsistent {α : Type}
    (respond : List (String × AttrVal) → Bool → StoreRead)
    (decode : List (String × AttrVal) → Option α)
    (key : List (String × AttrVal)) : Except String (Option α) :=
  getItemCore respond decode key true

/-! ## Query engine -/

/-- QueryOptions (dynamo_service.go lines 389-400): every field optional. -/
structure QueryOptions : Type where
  indexName : Option String := none
  keyConditionExpression : Option String := none
  filterExpression : Option String := none
  expressionAttributeNames : Option (List (String × String)) := none
  expressionAttributeValues : Option (List (String × AttrVal)) := none
  projectionExpression : Option String := none
  scanIndexForward : Option Bool := none
  limit : Option Int := none
  exclusiveStartKey : Option (List (String × AttrVal)) := none
  consistentRead : Option Bool := none

/-- QueryRequest (dynamo_service.go lines 27-37), the paginated-query spec:
Limit is a plain int32, NOT optional; there is no ConsistentRead field. -/
structure QueryRequest : Type where
  indexName : Option String := none
  keyConditionExpression : Option String := none
  filterExpression : Option String := none
  expressionAttributeNames : Option (List (String × String)) := none
  expressionAttributeValues : Option (List (String × AttrVal)) := none
  projectionExpression : Option String := none
  scanIndexForward : Option Bool := none
  limit : Int := 0
  exclusiveStartKey : Option (List (String × AttrVal)) := none

/-- The wire QueryInput the engine builds (aws dynamodb.QueryInput as far as
this engine populates it). -/
structure QueryInput : Type where
  tableName : String
  indexName : Option String := none
  keyConditionExpression : Option String := none
  filterExpression : Option String := none
  expressionAttributeNames : Option (List (String × String)) := none
  expressionAttributeValues : Option (List (String × AttrVal)) := none
  projectionExpression : Option String := none
  scanIndexForward : Option Bool := none
  limit : Option Int := none
  exclusiveStartKey : Option (List (String × AttrVal)) := none
  consistentRead : Option Bool := none

/-- The request-building prefix of QueryItems (dynamo_service.go lines
403-438): start from an input carrying only the table name, then copy each
optional field exactly when it is non-nil. -/
def QueryItems (tableName : String) (opts : QueryOptions) : QueryInput :=
  let i : QueryInput := { tableName := tableName }
  let i := match opts.indexName with
    | some v => { i with indexName := some v } | none => i
  let i := match opts.keyConditionExpression with
    | some v => { i with keyConditionExpression := some v } | none => i
  let i := match opts.filterExpression with
    | some v => { i with filterExpression := some v } | none => i
  let i := match opts.expressionAttributeNames with
    | some v => { i with expressionAttributeNames := some v } | none => i
  let i := match opts.expressionAttributeValues with
    | some v => { i with expressionAttributeValues := some v } | none => i
  let i := match opts.projectionExpression with
    | some v => { i with projectionExpression := some v } | none => i
  let i := match opts.scanIndexForward with
    | some v => { i with scanIndexForward := some v } | none => i
  let i := match opts.limit with
    | some v => { i with limit := some v } | none => i
  let i := match opts.exclusiveStartKey with
    | some v => { i with exclusiveStartKey := some v } | none => i
  let i := match opts.consistentRead with
    | some v => { i with consistentRead := some v } | none => i
  i

/-- The request-building prefix of QueryWithPaging (dynamo_service.go lines
514-538): the Limit is placed on the wire unconditionally
(Limit: ampersand-input.Limit, line 517); then only IndexName,
KeyConditionExpression, ExpressionAttributeValues, ExclusiveStartKey,
FilterExpression and ExpressionAttributeNames are copied when non-nil.
ProjectionExpression and ScanIndexForward exist on QueryRequest but are never
transferred, and QueryRequest has no consistency flag. -/
def QueryWithPaging (tableName : String) (input : QueryRequest) : QueryInput :=
  let i : QueryInput := { tableName := tableName, limit := some input.limit }
  let i := match input.indexName with
    | some v => { i with indexName := some v } | none => i
  let i := match input.keyConditionExpression with
    | some v => { i with keyConditionExpression := some v } | none => i
  let i := match input.expressionAttributeValues with
    | some v => { i with expressionAttributeValues := some v } | none => i
  let i := match input.exclusiveStartKey with
    | some v => { i with exclusiveStartKey := some v } | none => i
  let i := match input.filterExpression with
    | some v => { i with filterExpression := some v } | none => i
  let i := match input.expressionAttributeNames with
    | some v => { i with expressionAttributeNames := some v } | none => i
  i

/-! ## Go map reference semantics (for the Update aliasing claim) -/

/-- A Go runtime fault (panic), distinct from an error return value. -/
inductive GoPanic : Type
  | assignToNilMap
deriving DecidableEq, Repr

/-- Heap of allocated map objects, addressed by Nat.  A Go map VALUE is an
Option Nat: none is the nil map, some addr a reference to an allocated
object.  Assigning through the same reference is visible to every holder. -/
def GoHeap : Type := Nat → Option (List (String × GoValue))

/-- Go map assignment m[k] = v through a map reference: assignment to the
nil map is a runtime panic; otherwise the addressed object is updated in
place (a missing address never arises for references Go hands out, so it is
read as the empty map). -/
def heapAssign (h : GoHeap) (r : Option Nat) (k : String) (v : GoValue) :
    Except GoPanic GoHeap :=
  match r with
  | none => .error GoPanic.assignToNilMap
  | some addr =>
      .ok (fun a => if a = addr then some (assocSet ((h addr).getD []) k v)
                    else h a)

/-- The injection prefix of Update (base_repository.go lines 152-162) at the
level of map objects: attributes := opts.ExpressionAttributes copies only the
map reference, so both assignments write into the very map object the caller
supplied; with a nil reference the first assignment panics. -/
def UpdateHeap (now : Int) (entity : Product) (h : GoHeap)
    (attrs : Option Nat) : Except GoPanic GoHeap := do
  let h1 ← if productPtrIsTimestamped then
      heapAssign h attrs "updatedAt" (GoValue.vInt64 now) else pure h
  if productPtrIsVersioned then
    heapAssign h1 attrs "version" (GoValue.vInt (entity.version + 1))
  else pure h1

/-! ## Concrete inputs used by counterexamples and witnesses -/

/-- A concrete Product as a repository caller would hold it before a write:
version 7, createdAt 11, updatedAt 12. -/
def sampleProduct : Product :=
  { id := "p1", name := "Widget", price := 999 / 100,
    description := "a widget", createdAt := 11, updatedAt := 12,
    status := "ACTIVE", version := 7, brandId := "b1", categoryId := "c1",
    images := [{ url := "u1", alt := "a1" }] }

/-- Environment in which the first chunk (index 0) exhausts its retry budget
with one item unprocessed and every other chunk would succeed. -/
def c3Proc : Nat → List Nat → Option BatchError :=
  fun i _ => if i = 0 then some (BatchError.exhausted 1) else none

/-- Environment in which the second chunk (index 1) fails with a transport
error and every other chunk succeeds. -/
def c3wProc : Nat → List Nat → Option BatchError :=
  fun i _ => if i = 1 then some (BatchError.storeError 1) else none

/-- A paginated query spec carrying a projection and a descending scan
direction (next to a limit of 7). -/
def c8Request : QueryRequest :=
  { projectionExpression := some "id, #n", scanIndexForward := some false,
    limit := 7 }

/-- A one-object heap: address 0 holds the caller-supplied attribute map. -/
def c10Heap : GoHeap :=
  fun a => if a = 0 then some [("name", GoValue.vString "W")] else none

/-! ## Helper lemmas about the chunking loop -/

theorem chunkItems_nil {α : Type} : chunkItems ([] : List α) = [] := by
  simp [chunkItems]

theorem chunkItems_cons {α : Type} (x : α) (xs : List α) :
    chunkItems (x :: xs) =
      (x :: xs).take MaxBatchWriteItems ::
        chunkItems ((x :: xs).drop MaxBatchWriteItems) := by
  rw [chunkItems]

theorem chunkItems_flatten {α : Type} (l : List α) :
    (chunkItems l).flatten = l := by
  induction l using chunkItems.induct with
  | case1 => simp [chunkItems_nil]
  | case2 x xs ih =>
      rw [chunkItems_cons]
      simp [ih]

theorem chunkItems_length {α : Type} (l : List α) :
    (chunkItems l).length = (l.length + 24) / 25 := by
  induction l using chunkItems.induct with
  | case1 => simp [chunkItems_nil]
  | case2 x xs ih =>
      rw [chunkItems_cons]
      simp only [List.length_cons, ih, List.length_drop]
      simp only [MaxBatchWriteItems]
      omega

theorem chunkItems_le {α : Type} (l : List α) :
    ∀ c ∈ chunkItems l, c.length ≤ MaxBatchWriteItems := by
  induction l using chunkItems.induct with
  | case1 => simp [chunkItems_nil]
  | case2 x xs ih =>
      rw [chunkItems_cons]
      intro c hc
      rcases List.mem_cons.mp hc with h | h
      · subst h
        simp
      · exact ih c h

theorem chunkItems_ne_nil {α : Type} (l : List α) :
    ∀ c ∈ chunkItems l, c ≠ [] := by
  induction l using chunkItems.induct with
  | case1 => simp [chunkItems_nil]
  | case2 x xs ih =>
      rw [chunkItems_cons]
      intro c hc
      rcases List.mem_cons.mp hc with h | h
      · subst h
        intro hcon
        have hL := congrArg List.length hcon
        simp [List.length_take, MaxBatchWriteItems] at hL
      · exact ih c h

theorem chunkItems_replicate26 :
    chunkItems (List.replicate 26 (0 : Nat)) = [List.replicate 25 0, [0]] := by
  rw [show List.replicate 26 (0 : Nat) = 0 :: List.replicate 25 0 from rfl,
    chunkItems_cons,
    show (0 :: List.replicate 25 (0 : Nat)).take MaxBatchWriteItems
      = List.replicate 25 0 from rfl,
    show (0 :: List.replicate 25 (0 : Nat)).drop MaxBatchWriteItems
      = [0] from rfl,
    chunkItems_cons,
    show ([0] : List Nat).take MaxBatchWriteItems = [0] from rfl,
    show ([0] : List Nat).drop MaxBatchWriteItems = ([] : List Nat) from rfl,
    chunkItems_nil]

/-! ## Helper lemmas about the chunk-submission loop -/

theorem runChunks_ok {α : Type} (proc : Nat → List α → Option BatchError)
    (hok : ∀ i c, proc i c = none) :
    ∀ (cs : List (List α)) (i : Nat), runChunks proc i cs = (none, cs) := by
  intro cs
  induction cs with
  | nil => intro i; rfl
  | cons c t ih => intro i; simp [runChunks, hok, ih]

theorem runChunks_abort {α : Type} (proc : Nat → List α → Option BatchError) :
    ∀ (cs : List (List α)) (i k : Nat) (e : BatchError),
      (∀ j, j < k → ∀ c, cs[j]? = some c → proc (i + j) c = none) →
      (∀ c, cs[k]? = some c → proc (i + k) c = some e) →
      k < cs.length →
      runChunks proc i cs = (some (i + k, e), cs.take (k + 1)) := by
  intro cs
  induction cs with
  | nil => intro i k e _ _ hk; simp at hk
  | cons c t ih =>
      intro i k e hok hfail hk
      cases k with
      | zero =>
          have h := hfail c (by simp)
          rw [Nat.add_zero] at h
          simp [runChunks, h]
      | succ k' =>
          have h0 : proc i c = none := by
            have := hok 0 (by omega) c (by simp)
            simpa using this
          have ht := ih (i + 1) k' e
            (fun j hj d hd => by
              have := hok (j + 1) (by omega) d (by simpa using hd)
              simpa [Nat.add_assoc, Nat.add_comm 1 j] using this)
            (fun d hd => by
              have := hfail d (by simpa using hd)
              simpa [Nat.add_assoc, Nat.add_comm 1 k'] using this)
            (by simpa using Nat.lt_of_succ_lt_succ hk)
          simp [runChunks, h0, ht]
          omega

/-! ## Helper lemmas about the retry loop -/

theorem batchAttempts_calls_le {ρ : Type} (store : Nat → Option (List ρ)) :
    ∀ (fuel a : Nat) (u : List ρ),
      (batchAttempts store a fuel u).calls.length ≤ fuel := by
  intro fuel
  induction fuel with
  | zero =>
      intro a u
      by_cases h : u.isEmpty <;> simp [batchAttempts, h]
  | succ f ih =>
      intro a u
      by_cases h : u.isEmpty
      · simp [batchAttempts, h]
      · cases hs : store a with
        | none => simp [batchAttempts, h, hs]
        | some next =>
            simp only [batchAttempts, h, hs, Bool.false_eq_true, if_false,
              List.length_cons]
            exact Nat.succ_le_succ (ih (a + 1) next)

theorem batchAttempts_delays {ρ : Type} (store : Nat → Option (List ρ)) :
    ∀ (fuel a : Nat) (u : List ρ),
      (batchAttempts store a fuel u).delays =
        (List.range (batchAttempts store a fuel u).calls.length).map
          (fun k => (a + k) * (a + k) * 100) := by
  intro fuel
  induction fuel with
  | zero =>
      intro a u
      by_cases h : u.isEmpty <;> simp [batchAttempts, h]
  | succ f ih =>
      intro a u
      by_cases h : u.isEmpty
      · simp [batchAttempts, h]
      · cases hs : store a with
        | none => simp [batchAttempts, h, hs, List.range_succ]
        | some next =>
            simp only [batchAttempts, h, hs, Bool.false_eq_true, if_false,
              List.length_cons, ih (a + 1) next]
            rw [List.range_succ_eq_map, List.map_cons, List.map_map]
            have hfun : ((fun k => (a + k) * (a + k) * 100) ∘ Nat.succ)
                = fun k => (a + 1 + k) * (a + 1 + k) * 100 := by
              funext k
              simp only [Function.comp_apply, Nat.succ_eq_add_one]
              ring
            rw [hfun]
            norm_num

theorem batchAttempts_exhausted {ρ : Type} (store : Nat → Option (List ρ)) :
    ∀ (fuel a : Nat) (u : List ρ) (n : Nat),
      (batchAttempts store a fuel u).result = some (BatchError.exhausted n) →
      n = (batchAttempts store a fuel u).remaining.length ∧
      (batchAttempts store a fuel u).remaining ≠ [] ∧
      (batchAttempts store a fuel u).calls.length = fuel := by
  intro fuel
  induction fuel with
  | zero =>
      intro a u n
      by_cases h : u.isEmpty
      · simp [batchAttempts, h]
      · simp [batchAttempts, h]
        intro hn
        constructor
        · omega
        · simpa [List.isEmpty_iff] using h
  | succ f ih =>
      intro a u n
      by_cases h : u.isEmpty
      · simp [batchAttempts, h]
      · cases hs : store a with
        | none => simp [batchAttempts, h, hs]
        | some next =>
            simp only [batchAttempts, h, hs, Bool.false_eq_true, if_false,
              List.length_cons]
            intro hr
            rcases ih (a + 1) next n hr with ⟨h1, h2, h3⟩
            exact ⟨h1, h2, by omega⟩

/-! ## Helper lemmas about Go map assignment -/

theorem assocSet_lookup_self {α : Type} (m : List (String × α)) (k : String)
    (v : α) : (assocSet m k v).lookup k = some v := by
  induction m with
  | nil => simp [assocSet, List.lookup]
  | cons p t ih =>
      obtain ⟨k', v'⟩ := p
      by_cases h : k' = k
      · simp [assocSet, h, List.lookup]
      · have hbe : (k == k') = false := beq_eq_false_iff_ne.mpr (Ne.symm h)
        simp [assocSet, h, List.lookup, hbe, ih]

theorem assocSet_lookup_other {α : Type} (m : List (String × α))
    (k k' : String) (v : α) (h : k' ≠ k) :
    (assocSet m k v).lookup k' = m.lookup k' := by
  have hbe : (k' == k) = false := beq_eq_false_iff_ne.mpr h
  induction m with
  | nil => simp [assocSet, List.lookup, hbe]
  | cons p t ih =>
      obtain ⟨k0, v0⟩ := p
      by_cases h0 : k0 = k
      · subst h0
        simp [assocSet, List.lookup, hbe]
      · simp only [assocSet, h0, if_false, List.lookup]
        by_cases h1 : k' = k0
        · simp [h1]
        · have hbe1 : (k' == k0) = false := beq_eq_false_iff_ne.mpr h1
          simp [hbe1, ih]

/-! ## Helper lemmas about the codec -/

theorem unmarshalImage_marshalImage (im : ImageUrl) :
    unmarshalImage (marshalImage im) = some im := by
  simp [marshalImage, unmarshalImage, attrString, List.lookup]

theorem unmarshalImages_marshal (l : List ImageUrl) :
    unmarshalImages (l.map marshalImage) = some l := by
  induction l with
  | nil => rfl
  | cons a t ih => simp [unmarshalImages, unmarshalImage_marshalImage, ih]

/-! ## Helper lemmas about the query request builders -/

theorem QueryItems_eq (tn : String) (opts : QueryOptions) :
    QueryItems tn opts =
      { tableName := tn
        indexName := opts.indexName
        keyConditionExpression := opts.keyConditionExpression
        filterExpression := opts.filterExpression
        expressionAttributeNames := opts.expressionAttributeNames
        expressionAttributeValues := opts.expressionAttributeValues
        projectionExpression := opts.projectionExpression
        scanIndexForward := opts.scanIndexForward
        limit := opts.limit
        exclusiveStartKey := opts.exclusiveStartKey
        consistentRead := opts.consistentRead } := by
  obtain ⟨o1, o2, o3, o4, o5, o6, o7, o8, o9, o10⟩ := opts
  cases o1 <;> cases o2 <;> cases o3 <;> cases o4 <;> cases o5 <;> cases o6 <;>
    cases o7 <;> cases o8 <;> cases o9 <;> cases o10 <;> rfl

theorem QueryWithPaging_eq (tn : String) (req : QueryRequest) :
    QueryWithPaging tn req =
      { tableName := tn
        indexName := req.indexName
        keyConditionExpression := req.keyConditionExpression
        filterExpression := req.filterExpression
        expressionAttributeNames := req.expressionAttributeNames
        expressionAttributeValues := req.expressionAttributeValues
        projectionExpression := none
        scanIndexForward := none
        limit := some req.limit
        exclusiveStartKey := req.exclusiveStartKey
        consistentRead := none } := by
  obtain ⟨r1, r2, r3, r4, r5, r6, r7, r8, r9⟩ := req
  cases r1 <;> cases r2 <;> cases r3 <;> cases r4 <;> cases r5 <;> cases r9 <;>
    rfl

/-! ## Claim theorems -/

/-- C1: for every non-empty list of N items passed to AddBatchItems, when
every chunk submission succeeds, the items are partitioned into consecutive
chunks of at most 25 items each, exactly ceil(N/25) chunk submissions are
made, and the submitted chunks concatenate back to the input in order. -/
theorem c1_addBatchItems_chunking {α : Type}
    (proc : Nat → List α → Option BatchError) (items : List α)
    (hne : items ≠ []) (hok : ∀ i c, proc i c = none) :
    (AddBatchItems proc items).1 = none ∧
    (AddBatchItems proc items).2 = chunkItems items ∧
    (AddBatchItems proc items).2.length = (items.length + 24) / 25 ∧
    (∀ c ∈ (AddBatchItems proc items).2,
      c.length ≤ MaxBatchWriteItems ∧ c ≠ []) ∧
    (AddBatchItems proc items).2.flatten = items := by
  have hrun := runChunks_ok proc hok (chunkItems items) 0
  unfold AddBatchItems
  rw [hrun]
  refine ⟨rfl, rfl, chunkItems_length items, ?_, chunkItems_flatten items⟩
  intro c hc
  exact ⟨chunkItems_le items c hc, chunkItems_ne_nil items c hc⟩

/-- Witness for C1 at 26 items: both hypotheses hold and the theorem yields
exactly ceil(26/25) = 2 chunk submissions. -/
theorem c1_addBatchItems_chunking_witness :
    (List.replicate 26 (0 : Nat) ≠ []) ∧
    (AddBatchItems (fun _ _ => none) (List.replicate 26 (0 : Nat))).2.length
      = 2 := by
  refine ⟨by simp, ?_⟩
  have h := c1_addBatchItems_chunking (fun _ _ => none)
    (List.replicate 26 (0 : Nat)) (by simp) (fun _ _ => rfl)
  rw [h.2.2.1]
  simp

/-- C2: for every chunk processed by processBatch, at most 3 submission
attempts are made; the delay slept before the 1-based attempt i equals
(i-1)^2 x 100 ms (so 0 before the first attempt); and when the result is the
exhaustion error, its reported count is exactly the number of write requests
still unprocessed when the loop ended (a non-empty remainder reached after
all MaxRetryAttempts calls were made). -/
theorem c2_processBatch_retry {α ρ : Type} (marshal : α → Option ρ)
    (store : Nat → Option (List ρ)) (items : List α) :
    (processBatch marshal store items).calls.length ≤ MaxRetryAttempts ∧
    (processBatch marshal store items).delays =
      (List.range (processBatch marshal store items).calls.length).map
        (fun k => k * k * 100) ∧
    (∀ n, (processBatch marshal store items).result
        = some (BatchError.exhausted n) →
      n = (processBatch marshal store items).remaining.length ∧
      (processBatch marshal store items).remaining ≠ [] ∧
      (processBatch marshal store items).calls.length = MaxRetryAttempts) := by
  unfold processBatch
  cases h : items.mapM marshal with
  | none => simp
  | some reqs =>
      refine ⟨batchAttempts_calls_le store MaxRetryAttempts 0 reqs, ?_, ?_⟩
      · have hd := batchAttempts_delays store MaxRetryAttempts 0 reqs
        simpa using hd
      · intro n hr
        exact batchAttempts_exhausted store MaxRetryAttempts 0 reqs n hr

/-- Witness for C2: a store that always reports both write requests as
unprocessed makes processBatch place three calls, sleep 0, 100 and 400 ms,
and report exactly 2 items still unprocessed. -/
theorem c2_processBatch_retry_witness :
    (processBatch (fun x : Unit => some x)
        (fun _ => some [(), ()]) [(), ()]).result
      = some (BatchError.exhausted 2) ∧
    (processBatch (fun x : Unit => some x)
        (fun _ => some [(), ()]) [(), ()]).delays = [0, 100, 400] ∧
    2 = (processBatch (fun x : Unit => some x)
        (fun _ => some [(), ()]) [(), ()]).remaining.length ∧
    (processBatch (fun x : Unit => some x)
        (fun _ => some [(), ()]) [(), ()]).calls.length = MaxRetryAttempts := by
  refine ⟨rfl, rfl, ?_, ?_⟩
  · exact ((c2_processBatch_retry (fun x : Unit => some x)
      (fun _ => some [(), ()]) [(), ()]).2.2 2 rfl).1
  · exact ((c2_processBatch_retry (fun x : Unit => some x)
      (fun _ => some [(), ()]) [(), ()]).2.2 2 rfl).2.2

/-- C3 counterexample: 26 items span two chunks; the first chunk exhausts
its retry budget, and AddBatchItems returns its error having submitted ONLY
the first chunk — the second chunk [0] is never submitted, contrary to the
claim that subsequent chunks are still submitted. -/
theorem c3_chunk_failure_counterexample :
    (chunkItems (List.replicate 26 (0 : Nat))).length = 2 ∧
    c3Proc 0 (List.replicate 25 0) = some (BatchError.exhausted 1) ∧
    AddBatchItems c3Proc (List.replicate 26 (0 : Nat)) =
      (some (0, BatchError.exhausted 1), [List.replicate 25 0]) := by
  refine ⟨?_, rfl, ?_⟩
  · rw [chunkItems_replicate26]
    rfl
  · unfold AddBatchItems
    rw [chunkItems_replicate26]
    rfl

/-- C3 amended: when chunk k is the first to fail (all chunks before it
succeed), AddBatchItems aborts at once with that error: the chunks up to and
including k were submitted in input order — so items accepted in earlier
chunks have already been written and are not rolled back — and no chunk after
k is ever submitted. -/
theorem c3_abort_on_chunk_failure {α : Type}
    (proc : Nat → List α → Option BatchError) (items : List α)
    (k : Nat) (e : BatchError)
    (hok : ∀ j, j < k → ∀ c, (chunkItems items)[j]? = some c → proc j c = none)
    (hfail : ∀ c, (chunkItems items)[k]? = some c → proc k c = some e)
    (hk : k < (chunkItems items).length) :
    AddBatchItems proc items = (some (k, e), (chunkItems items).take (k + 1)) := by
  unfold AddBatchItems
  have h := runChunks_abort proc (chunkItems items) 0 k e
    (fun j hj c hc => by simpa using hok j hj c hc)
    (fun c hc => by simpa using hfail c hc)
    hk
  simpa using h

/-- Witness for C3 amended at 26 items whose second chunk fails: both chunks
are submitted (the first succeeded before the failure) and the error of chunk
1 is returned. -/
theorem c3_abort_on_chunk_failure_witness :
    (1 < (chunkItems (List.replicate 26 (0 : Nat))).length) ∧
    AddBatchItems c3wProc (List.replicate 26 (0 : Nat)) =
      (some (1, BatchError.storeError 1), [List.replicate 25 0, [0]]) := by
  have hk : 1 < (chunkItems (List.replicate 26 (0 : Nat))).length := by
    rw [chunkItems_replicate26]
    norm_num
  refine ⟨hk, ?_⟩
  have h := c3_abort_on_chunk_failure c3wProc (List.replicate 26 (0 : Nat)) 1
    (BatchError.storeError 1)
    (fun j hj c _ => by
      have hj0 : j = 0 := by omega
      subst hj0
      rfl)
    (fun c _ => rfl)
    hk
  rw [h, chunkItems_replicate26]
  rfl

/-- C4 counterexample: SaveIfNotExists writes sampleProduct exactly as given
(now = 1000): the version stays 7 instead of being seeded to 1, and neither
instant is set to now — contrary to the claim that SaveIfNotExists applies
the same capability injection as Save. -/
theorem c4_saveIfNotExists_counterexample :
    SaveIfNotExists 1000 sampleProduct = sampleProduct ∧
    (SaveIfNotExists 1000 sampleProduct).version = 7 ∧
    (SaveIfNotExists 1000 sampleProduct).version ≠ 1 ∧
    (SaveIfNotExists 1000 sampleProduct).createdAt ≠ 1000 ∧
    (SaveIfNotExists 1000 sampleProduct).updatedAt ≠ 1000 := by
  refine ⟨rfl, rfl, ?_, ?_, ?_⟩ <;> decide

/-- C4 amended: Save and SaveBatch, whose capability assertions run against
the entity pointer, set both instants to now and seed the version to 1 before
the write; SaveIfNotExists writes the entity unchanged — it has no Versioned
branch at all, and its Timestamped assertion runs against the entity value,
whose method set (pointer-receiver setters) does not satisfy the
capability. -/
theorem c4_capability_injection_on_save (now : Int) (p : Product)
    (ps : List Product) :
    (Save now p).createdAt = now ∧ (Save now p).updatedAt = now ∧
    (Save now p).version = 1 ∧
    SaveBatch now ps = ps.map (Save now) ∧
    SaveIfNotExists now p = p := by
  refine ⟨rfl, rfl, rfl, rfl, rfl⟩

/-- C5 counterexample: UpdateByID on the Products repository (whose entity
type has both capabilities) forwards the assignment map unchanged: with an
empty caller map neither an updatedAt nor a version entry is present in the
assignments written — contrary to the claim that every UpdateByID call on a
Timestamped entity adds the update instant and bumps the version. -/
theorem c5_updateById_counterexample :
    UpdateByID ([] : List (String × GoValue)) = [] ∧
    (UpdateByID ([] : List (String × GoValue))).lookup "updatedAt" = none ∧
    (UpdateByID ([] : List (String × GoValue))).lookup "version" = none := by
  exact ⟨rfl, rfl, rfl⟩

/-- C5 amended: Update injects exactly the update instant (updatedAt = now,
never createdAt) and version = currentVersion + 1 into the assignment map,
leaving every other key unchanged; UpdateByID injects nothing and forwards
the map as given. -/
theorem c5_update_injection (now : Int) (p : Product)
    (attrs : List (String × GoValue)) :
    (Update now p attrs).lookup "updatedAt" = some (GoValue.vInt64 now) ∧
    (Update now p attrs).lookup "version"
      = some (GoValue.vInt (p.version + 1)) ∧
    (Update now p attrs).lookup "createdAt" = attrs.lookup "createdAt" ∧
    (∀ k : String, k ≠ "updatedAt" → k ≠ "version" →
      (Update now p attrs).lookup k = attrs.lookup k) ∧
    UpdateByID attrs = attrs := by
  have hU : Update now p attrs
      = assocSet (assocSet attrs "updatedAt" (GoValue.vInt64 now)) "version"
          (GoValue.vInt (p.version + 1)) := rfl
  refine ⟨?_, ?_, ?_, ?_, rfl⟩
  · rw [hU, assocSet_lookup_other _ _ _ _ (by decide)]
    exact assocSet_lookup_self _ _ _
  · rw [hU]
    exact assocSet_lookup_self _ _ _
  · rw [hU, assocSet_lookup_other _ _ _ _ (by decide),
      assocSet_lookup_other _ _ _ _ (by decide)]
  · intro k hk1 hk2
    rw [hU, assocSet_lookup_other _ _ _ _ hk2, assocSet_lookup_other _ _ _ _ hk1]

/-- Witness for C5 amended: at key "name" (distinct from both injected keys)
the assignment map of sampleProduct is untouched by Update. -/
theorem c5_update_injection_witness :
    (("name" : String) ≠ "updatedAt") ∧ (("name" : String) ≠ "version") ∧
    (Update 1000 sampleProduct [("name", GoValue.vString "W")]).lookup "name"
      = ([("name", GoValue.vString "W")] :
          List (String × GoValue)).lookup "name" := by
  refine ⟨by decide, by decide, ?_⟩
  exact (c5_update_injection 1000 sampleProduct
    [("name", GoValue.vString "W")]).2.2.2.1 "name" (by decide) (by decide)

/-- C6: the entity codec round-trips every representable Product:
unmarshaling the attribute map produced by marshaling p returns exactly p,
field for field (the injected timestamp/version fields are ordinary entity
fields here and round-trip with the rest). -/
theorem c6_codec_roundtrip (p : Product) :
    unmarshalProduct (marshalProduct p) = some p := by
  simp [marshalProduct, unmarshalProduct, attrString, attrNumber, attrInt,
    List.lookup, unmarshalImages_marshal, Rat.den_intCast, Rat.num_intCast]

/-- C7: when the store reports no item under the key, both GetItem and
GetItemConsistent return an absent value together with no error. -/
theorem c7_absent_is_not_error {α : Type}
    (respond : List (String × AttrVal) → Bool → StoreRead)
    (decode : List (String × AttrVal) → Option α)
    (key : List (String × AttrVal)) :
    (respond key false = StoreRead.missing →
      GetItem respond decode key = Except.ok none) ∧
    (respond key true = StoreRead.missing →
      GetItemConsistent respond decode key = Except.ok none) := by
  constructor <;> intro h <;>
    simp [GetItem, GetItemConsistent, getItemCore, h]

/-- Witness for C7: a store with no item under the key makes GetItem return
ok-none. -/
theorem c7_absent_is_not_error_witness :
    ((fun (_ : List (String × AttrVal)) (_ : Bool) => StoreRead.missing)
        [("id", AttrVal.S "p1")] false = StoreRead.missing) ∧
    GetItem (fun _ _ => StoreRead.missing) unmarshalProduct
      [("id", AttrVal.S "p1")] = Except.ok none := by
  exact ⟨rfl, (c7_absent_is_not_error (fun _ _ => StoreRead.missing)
    unmarshalProduct [("id", AttrVal.S "p1")]).1 rfl⟩

/-- C8 counterexample: a paginated query spec carrying a projection and a
scan direction produces a wire request with NEITHER — QueryWithPaging drops
both fields — contrary to the claim that in both query paths every optional
spec field present is copied into the wire request. -/
theorem c8_paging_counterexample :
    c8Request.projectionExpression = some "id, #n" ∧
    (QueryWithPaging "Products" c8Request).projectionExpression = none ∧
    c8Request.scanIndexForward = some false ∧
    (QueryWithPaging "Products" c8Request).scanIndexForward = none := by
  exact ⟨rfl, rfl, rfl, rfl⟩

/-- C8 amended: in the plain query path every optional field of the spec is
copied into the wire request exactly when present and omitted when absent,
with no other defaulting.  In the paginated path only index name, key
condition, filter, the attribute name/value maps and the start cursor are so
copied; the limit is placed on the wire unconditionally (even when 0); the
projection and scan-direction fields of the spec are ignored, and the
paginated spec has no consistency flag, so the wire request never carries
one. -/
theorem c8_query_request_building (tn : String) (opts : QueryOptions)
    (req : QueryRequest) :
    (QueryItems tn opts).tableName = tn ∧
    (QueryItems tn opts).indexName = opts.indexName ∧
    (QueryItems tn opts).keyConditionExpression
      = opts.keyConditionExpression ∧
    (QueryItems tn opts).filterExpression = opts.filterExpression ∧
    (QueryItems tn opts).expressionAttributeNames
      = opts.expressionAttributeNames ∧
    (QueryItems tn opts).expressionAttributeValues
      = opts.expressionAttributeValues ∧
    (QueryItems tn opts).projectionExpression = opts.projectionExpression ∧
    (QueryItems tn opts).scanIndexForward = opts.scanIndexForward ∧
    (QueryItems tn opts).limit = opts.limit ∧
    (QueryItems tn opts).exclusiveStartKey = opts.exclusiveStartKey ∧
    (QueryItems tn opts).consistentRead = opts.consistentRead ∧
    (QueryWithPaging tn req).tableName = tn ∧
    (QueryWithPaging tn req).limit = some req.limit ∧
    (QueryWithPaging tn req).indexName = req.indexName ∧
    (QueryWithPaging tn req).keyConditionExpression
      = req.keyConditionExpression ∧
    (QueryWithPaging tn req).filterExpression = req.filterExpression ∧
    (QueryWithPaging tn req).expressionAttributeNames
      = req.expressionAttributeNames ∧
    (QueryWithPaging tn req).expressionAttributeValues
      = req.expressionAttributeValues ∧
    (QueryWithPaging tn req).exclusiveStartKey = req.exclusiveStartKey ∧
    (QueryWithPaging tn req).projectionExpression = none ∧
    (QueryWithPaging tn req).scanIndexForward = none ∧
    (QueryWithPaging tn req).consistentRead = none := by
  rw [QueryItems_eq, QueryWithPaging_eq]
  exact ⟨rfl, rfl, rfl, rfl, rfl, rfl, rfl, rfl, rfl, rfl, rfl, rfl, rfl,
    rfl, rfl, rfl, rfl, rfl, rfl, rfl, rfl, rfl⟩

/-- C9 counterexample: int32(5) is a numeric value, yet the update builder
writes it as the wire STRING "5" — the type switch lists only int, int64 and
float64 — contrary to the claim that every numeric value is written as a
wire number. -/
theorem c9_numeric_coercion_counterexample :
    GoValue.isNumeric (GoValue.vInt32 5) = true ∧
    coerceUpdateValue (GoValue.vInt32 5) = AttrVal.S "5" ∧
    coerceUpdateValue (GoValue.vInt32 5) ≠ AttrVal.N 5 := by
  refine ⟨rfl, rfl, fun h => ?_⟩
  rw [show coerceUpdateValue (GoValue.vInt32 5) = AttrVal.S "5" from rfl] at h
  exact AttrVal.noConfusion h

/-- C9 amended: the SET-only update builder maps each assignment to its
coerced wire value; values of dynamic type int, int64 or float64 are written
as wire numbers, and every other value — including values of other numeric
types such as int32 and uint — is written as its string representation. -/
theorem c9_update_value_coercion (v : GoValue)
    (attrs : List (String × GoValue)) :
    buildUpdateAssignments attrs
      = attrs.map (fun kv => (kv.1, coerceUpdateValue kv.2)) ∧
    (GoValue.isSwitchNumeric v = true →
      ∃ q : ℚ, coerceUpdateValue v = AttrVal.N q) ∧
    (GoValue.isSwitchNumeric v = false →
      ∃ s : String, coerceUpdateValue v = AttrVal.S s) := by
  refine ⟨rfl, ?_, ?_⟩ <;> cases v <;>
    simp [GoValue.isSwitchNumeric, coerceUpdateValue]

/-- Witness for C9 amended at int64(5): the switch treats it as numeric and
a wire number is produced. -/
theorem c9_update_value_coercion_witness :
    GoValue.isSwitchNumeric (GoValue.vInt64 5) = true ∧
    (∃ q : ℚ, coerceUpdateValue (GoValue.vInt64 5) = AttrVal.N q) := by
  exact ⟨rfl, (c9_update_value_coercion (GoValue.vInt64 5) []).2.1 rfl⟩

/-- C10: the Update injection writes updatedAt and version into the very map
object the caller supplied (the object at the caller-visible address holds
both injected entries afterwards), and when the caller supplies a nil map the
operation panics with an assignment-to-nil-map fault instead of returning an
error value. -/
theorem c10_update_mutates_caller_map (now : Int) (p : Product) (h : GoHeap)
    (addr : Nat) (m : List (String × GoValue)) (hm : h addr = some m) :
    UpdateHeap now p h none = Except.error GoPanic.assignToNilMap ∧
    ∃ h' : GoHeap, UpdateHeap now p h (some addr) = Except.ok h' ∧
      h' addr = some (assocSet (assocSet m "updatedAt" (GoValue.vInt64 now))
        "version" (GoValue.vInt (p.version + 1))) := by
  constructor
  · rfl
  · refine ⟨_, rfl, ?_⟩
    simp [heapAssign, hm]

/-- Witness for C10 at a one-object heap: the caller-held object at address 0
contains both injected entries after Update, and the nil-map path panics. -/
theorem c10_update_mutates_caller_map_witness :
    c10Heap 0 = some [("name", GoValue.vString "W")] ∧
    (UpdateHeap 1000 sampleProduct c10Heap none
        = Except.error GoPanic.assignToNilMap ∧
      ∃ h' : GoHeap, UpdateHeap 1000 sampleProduct c10Heap (some 0)
          = Except.ok h' ∧
        h' 0 = some (assocSet
          (assocSet [("name", GoValue.vString "W")] "updatedAt"
            (GoValue.vInt64 1000))
          "version" (GoValue.vInt (sampleProduct.version + 1)))) := by
  exact ⟨rfl, c10_update_mutates_caller_map 1000 sampleProduct c10Heap 0
    [("name", GoValue.vString "W")] rfl⟩

end EcommerceAws
